import Mathlib

/-!
# Shallow embedding of `rules.enforcer` (django-rules)

This file embeds the `Enforcer` class of `src/rules/enforcer.py` and proves
the behavioural properties claimed for it.

Modelling choices, mirroring the Python source:

* Users and targets are opaque Python values; the code only ever inspects
  their truthiness (the `or` idiom on lines 106, 111, 115).  `PyVal` carries
  enough constructors to have truthy and falsy values of several kinds, and
  `PyVal.truthy` is Python's `bool()`.
* A predicate is an object with a pure `test(user, target) -> bool` method;
  the `id` field only serves to observe which predicate was handed to a
  failure handler.
* A failure handler is a Python callable: `sig` is the parameter list that
  `inspect.signature(fn).parameters` reports (a `*args` parameter is a
  single entry of kind `varArgs`, exactly as in `inspect`), and `run` is its
  body, which may raise (`Except.error`) or return normally.
* Exceptions are values of `Exc`; raising is `Except.error`.
  `Exc.permissionDenied` carries what the raise site on lines 122-125 puts
  into `rules.exceptions.PermissionDenied` (the class itself lives outside
  `src/`, but only the payload visible at the raise site matters here).
* Each operation threads a `Trace` that counts the calls the source makes:
  user-loader calls, predicate evaluations, target-loader calls, wrapped
  function calls, and the list of failure-handler invocations together with
  the exact argument list each received.  A counter is bumped precisely at
  the source line performing the corresponding call.
-/

namespace DjangoRules

/-- An opaque Python value, as seen by the enforcer: the enforcer only ever
passes these through or asks for their truthiness. -/
inductive PyVal where
  | none
  | bool (b : Bool)
  | int (n : Int)
  | str (s : String)
  | obj (id : Nat)
deriving Repr, DecidableEq

/-- Python truthiness, `bool(v)`, as used by the `x or y` idiom in the
source (lines 106, 111, 115). -/
def PyVal.truthy : PyVal → Bool
  | PyVal.none => false
  | PyVal.bool b => b
  | PyVal.int n => decide (n ≠ 0)
  | PyVal.str s => decide (s ≠ "")
  | PyVal.obj _ => true

/-- `str(v)`, only needed for the message the default error handler builds
on line 123. -/
def PyVal.toStr : PyVal → String
  | PyVal.none => "None"
  | PyVal.bool b => if b then "True" else "False"
  | PyVal.int n => toString n
  | PyVal.str s => s
  | PyVal.obj id => "<object " ++ toString id ++ ">"

/-- A permission predicate: an opaque object exposing
`test(user, target) -> bool`.  `id` identifies the object so that a trace
can record which predicate a failure handler received. -/
structure Pred where
  id : Nat
  test : PyVal → PyVal → Bool

/-- One positional argument handed to a failure handler: either the failing
predicate (identified by its `id`) or a plain value (user or target). -/
inductive Arg where
  | predArg (id : Nat)
  | valArg (v : PyVal)
deriving Repr, DecidableEq

/-- The exceptions the enforcer's code can raise or propagate.
`permissionDenied` carries the payload of the raise on lines 122-125;
`notImplementedError` is the default user loader's raise on lines 128-133;
`custom` stands for any exception a user-supplied callable raises. -/
inductive Exc where
  | permissionDenied (msg : String) (predId : Nat) (user : PyVal)
  | notImplementedError (msg : String)
  | typeError
  | custom (code : Nat)
deriving Repr, DecidableEq

/-- One entry of `inspect.signature(fn).parameters`: a positional parameter,
a `*args` parameter, a keyword-only parameter, or a `**kwargs` parameter.
`inspect` reports each as a single entry, so `len(...parameters)` is the
length of this list. -/
inductive Param where
  | positional
  | varArgs
  | kwOnly
  | varKw
deriving Repr, DecidableEq

/-- A failure-handler callable: its declared signature (as `inspect` sees
it) and its body.  The body receives the positional arguments `_fail`
passes and either returns normally or raises. -/
structure Handler where
  id : Nat
  sig : List Param
  run : List Arg → Except Exc Unit

/-- A user-loader callable `() -> User`: calling it either returns a value
or raises. -/
structure Loader where
  run : Except Exc PyVal

/-- A target-loader callable `() -> Target` (the `target_loader` argument
of `requires`). -/
structure TargetLoader where
  run : Except Exc PyVal

/-- A wrapped callable `func(*args)`, as decorated by `requires`. -/
structure Func where
  run : List PyVal → Except Exc PyVal

/-- The observable calls one enforcement operation makes.  `handlerCalls`
records, in order, each failure-handler invocation as the handler's `id`
paired with the exact positional argument list it received. -/
structure Trace where
  loaderCalls : Nat
  predCalls : Nat
  targetLoaderCalls : Nat
  funcCalls : Nat
  handlerCalls : List (Nat × List Arg)
deriving Repr, DecidableEq

/-- The empty trace an operation starts from. -/
def Trace.init : Trace :=
  { loaderCalls := 0, predCalls := 0, targetLoaderCalls := 0
  , funcCalls := 0, handlerCalls := [] }

/-- The message of the `NotImplementedError` the default user loader raises
(lines 128-133). -/
def userLoaderNotRegisteredMsg : String :=
  "User loader not registered. Use @enforcer.user_loader to register."

/-- `Enforcer._default_user_loader` (lines 127-133): always raises
`NotImplementedError`. -/
def default_user_loader : Loader :=
  { run := Except.error (Exc.notImplementedError userLoaderNotRegisteredMsg) }

/-- The message built on line 123: `'Access denied for user "{}"'.format(user)`. -/
def deniedMsg (user : PyVal) : String :=
  "Access denied for user \"" ++ user.toStr ++ "\""

/-- Body of `Enforcer._default_error_handler` (lines 121-125): raises
`PermissionDenied(msg, predicate, user)`.  Its Python signature is
`(self, predicate, user=None, target=None)`; bound, `inspect` sees the
three parameters `predicate, user, target`, so `_fail` always passes all
three.  The defaults `user=None, target=None` cover shorter call shapes. -/
def default_error_handler_run : List Arg → Except Exc Unit
  | Arg.predArg pid :: rest =>
      let user : PyVal :=
        match rest with
        | Arg.valArg v :: _ => v
        | _ => PyVal.none
      Except.error (Exc.permissionDenied (deniedMsg user) pid user)
  | _ => Except.error Exc.typeError

/-- `Enforcer._default_error_handler` as a `Handler`: three declared
positional parameters (`predicate, user, target`), raising body. -/
def default_error_handler : Handler :=
  { id := 0
  , sig := [Param.positional, Param.positional, Param.positional]
  , run := default_error_handler_run }

/-- The `Enforcer`'s two hook fields, `_user_loader` and `_error_handler`
(class attributes on lines 135-136, overwritten by the registration
methods). -/
structure Enforcer where
  user_loader : Loader
  error_handler : Handler

/-- `Enforcer.__init__(user_loader=None, error_handler=None)` (lines 9-13):
`if user_loader: ...` — a supplied callable is truthy, `None` falls back to
the class-level default hooks. -/
def Enforcer.new (ul : Option Loader) (eh : Option Handler) : Enforcer :=
  { user_loader := ul.getD default_user_loader
  , error_handler := eh.getD default_error_handler }

/-- `Enforcer.user_loader(fn)` (lines 42-64): replaces the hook and returns
`fn` (decorator-style registration).  Named `set_user_loader` because the
Lean field already uses the source name. -/
def Enforcer.set_user_loader (e : Enforcer) (fn : Loader) : Enforcer × Loader :=
  ({ e with user_loader := fn }, fn)

/-- `Enforcer.error_handler(fn)` (lines 15-40): replaces the hook and
returns `fn`. -/
def Enforcer.set_error_handler (e : Enforcer) (fn : Handler) : Enforcer × Handler :=
  ({ e with error_handler := fn }, fn)

/-- The expression `user or self._user_loader()` (lines 106 and 111):
Python `or` yields the left operand when truthy, otherwise it evaluates and
yields the right operand — so a falsy `user` (not just an omitted one)
triggers the loader call, which is counted in the trace and whose raise
propagates. -/
def Enforcer.resolve_user (e : Enforcer) (user : PyVal) (tr : Trace) :
    Except Exc PyVal × Trace :=
  if user.truthy then (Except.ok user, tr)
  else (e.user_loader.run, { tr with loaderCalls := tr.loaderCalls + 1 })

/-- `Enforcer._fail(predicate, user, target, fail_handler=None)`
(lines 114-119): picks `fail_handler or self._error_handler`, then calls it
with `fargs[:len(inspect.signature(fail_handler).parameters)]` where
`fargs = (predicate, user, target)`.  The trace records the handler id and
the exact truncated argument list. -/
def Enforcer.fail (e : Enforcer) (p : Pred) (user target : PyVal)
    (fail_handler : Option Handler) (tr : Trace) : Except Exc Unit × Trace :=
  let h := fail_handler.getD e.error_handler
  let fargs : List Arg := [Arg.predArg p.id, Arg.valArg user, Arg.valArg target]
  let args := fargs.take h.sig.length
  (h.run args, { tr with handlerCalls := tr.handlerCalls ++ [(h.id, args)] })

/-- `Enforcer.ensure(predicate, user=None, target=None, on_failure=None)`
(lines 92-108): resolve the user, evaluate the predicate once, and on a
false result dispatch to `_fail` with the per-call `on_failure`. -/
def Enforcer.ensure (e : Enforcer) (p : Pred) (user target : PyVal)
    (on_failure : Option Handler) (tr : Trace) : Except Exc Unit × Trace :=
  match e.resolve_user user tr with
  | (Except.error exc, tr1) => (Except.error exc, tr1)
  | (Except.ok u, tr1) =>
      let tr2 := { tr1 with predCalls := tr1.predCalls + 1 }
      if p.test u target then (Except.ok (), tr2)
      else e.fail p u target on_failure tr2

/-- `Enforcer.test(predicate, user=None, target=None)` (lines 110-112):
same user resolution, returns the predicate's boolean directly. -/
def Enforcer.test (e : Enforcer) (p : Pred) (user target : PyVal)
    (tr : Trace) : Except Exc Bool × Trace :=
  match e.resolve_user user tr with
  | (Except.error exc, tr1) => (Except.error exc, tr1)
  | (Except.ok u, tr1) =>
      (Except.ok (p.test u target),
       { tr1 with predCalls := tr1.predCalls + 1 })

/-- The `wrapper` closure `Enforcer.requires(predicate, target_loader=None,
on_failure=None)` builds (lines 82-90), applied to `func` and invoked with
`args`:
1. `user = self._user_loader()` — always calls the loader;
2. `target = target_loader() if target_loader else None`;
3. `self.ensure(predicate, user=user, target=target)` — NOTE: the source
   does not forward `on_failure` here (line 87), although the docstring of
   `requires` says it overrides the registered `error_handler`; the
   parameter is kept to make that observable;
4. only when `ensure` returned normally, `return func(*args)`. -/
def Enforcer.requires_wrapper (e : Enforcer) (p : Pred)
    (target_loader : Option TargetLoader) (on_failure : Option Handler)
    (func : Func) (args : List PyVal) (tr : Trace) :
    Except Exc PyVal × Trace :=
  let tr1 := { tr with loaderCalls := tr.loaderCalls + 1 }
  match e.user_loader.run with
  | Except.error exc => (Except.error exc, tr1)
  | Except.ok user =>
      let resolved : Except Exc PyVal × Trace :=
        match target_loader with
        | some tl =>
            (tl.run, { tr1 with targetLoaderCalls := tr1.targetLoaderCalls + 1 })
        | Option.none => (Except.ok PyVal.none, tr1)
      match resolved with
      | (Except.error exc, tr2) => (Except.error exc, tr2)
      | (Except.ok target, tr2) =>
          match e.ensure p user target Option.none tr2 with
          | (Except.error exc, tr3) => (Except.error exc, tr3)
          | (Except.ok _, tr3) =>
              (func.run args, { tr3 with funcCalls := tr3.funcCalls + 1 })

/-! ## Concrete fixtures used by counterexamples and witnesses -/

/-- A user loader that returns the (truthy) user object `obj 1`. -/
def loaderAlice : Loader := { run := Except.ok (PyVal.obj 1) }

/-- A predicate that is true on every input. -/
def predTrue : Pred := { id := 1, test := fun _ _ => true }

/-- A predicate that is false on every input. -/
def predFalse : Pred := { id := 2, test := fun _ _ => false }

/-- A predicate true exactly on falsy users: its verdict on a falsy
explicit user differs from its verdict on the loader's user. -/
def predFalsyOnly : Pred := { id := 7, test := fun u _ => !u.truthy }

/-- A failure handler with three positional parameters whose body returns
normally (does not raise). -/
def noopHandler : Handler :=
  { id := 10
  , sig := [Param.positional, Param.positional, Param.positional]
  , run := fun _ => Except.ok () }

/-- A failure handler with three positional parameters whose body raises. -/
def raisingHandler : Handler :=
  { id := 11
  , sig := [Param.positional, Param.positional, Param.positional]
  , run := fun _ => Except.error (Exc.custom 99) }

/-- A failure handler declared as `def h(*args)`: `inspect` reports a
single `*args` parameter, and the body returns normally. -/
def varargsHandler : Handler :=
  { id := 12, sig := [Param.varArgs], run := fun _ => Except.ok () }

/-- A failure handler with two positional parameters, returning normally. -/
def twoArgHandler : Handler :=
  { id := 13
  , sig := [Param.positional, Param.positional]
  , run := fun _ => Except.ok () }

/-- A wrapped function returning the constant `42`. -/
def func42 : Func := { run := fun _ => Except.ok (PyVal.int 42) }

/-- An enforcer with the `loaderAlice` user loader and the non-raising
`noopHandler` failure handler. -/
def enfAliceNoop : Enforcer := Enforcer.new (some loaderAlice) (some noopHandler)

/-- An enforcer with the `loaderAlice` user loader and the raising
`raisingHandler` failure handler. -/
def enfAliceRaise : Enforcer := Enforcer.new (some loaderAlice) (some raisingHandler)

/-! ## C1 -/

/-- C1 (counterexample): the claim quantifies over every user `U`, but for
a falsy supplied user the `user or self._user_loader()` idiom replaces `U`
by the loader's user.  Here `U = int 0` is supplied, a user loader is
configured, `P.test(U, T)` is `true` — yet `ensure` invokes the failure
handler, because the predicate is evaluated on the loader's user instead. -/
theorem C1_counterexample :
    predFalsyOnly.test (PyVal.int 0) PyVal.none = true ∧
    (enfAliceNoop.ensure predFalsyOnly (PyVal.int 0) PyVal.none Option.none
        Trace.init).2.handlerCalls.length = 1 := by
  constructor <;> rfl

/-- C1 (amended: restricted to truthy supplied users `U`; a falsy `U` is
replaced by the loader's user): for every enforcer, predicate `P`, truthy
user `U`, target `T` and per-call handler, `ensure(P, U, T)` invokes the
failure-handler path if and only if `P.test(U, T)` is false, evaluates
`P.test` exactly once (hence at most once), and `test(P, U, T)` returns
exactly `P.test(U, T)` without invoking any failure handler in either
branch. -/
theorem C1_ensure_iff_test_false (e : Enforcer) (p : Pred) (u t : PyVal)
    (onf : Option Handler) (hu : u.truthy = true) :
    ((e.ensure p u t onf Trace.init).2.handlerCalls.length =
        if p.test u t then 0 else 1) ∧
    (e.ensure p u t onf Trace.init).2.predCalls = 1 ∧
    (e.test p u t Trace.init).1 = Except.ok (p.test u t) ∧
    (e.test p u t Trace.init).2.handlerCalls = [] := by
  unfold Enforcer.ensure Enforcer.test Enforcer.resolve_user Enforcer.fail
  simp only [hu, if_true]
  by_cases h : p.test u t <;> simp [h, Trace.init]

/-- C1 (witness): the amended theorem applied to the concrete enforcer
`enfAliceNoop`, the always-false predicate, and the truthy user `obj 2`. -/
theorem C1_witness :
    ((enfAliceNoop.ensure predFalse (PyVal.obj 2) PyVal.none Option.none
        Trace.init).2.handlerCalls.length =
      if predFalse.test (PyVal.obj 2) PyVal.none then 0 else 1) ∧
    (enfAliceNoop.ensure predFalse (PyVal.obj 2) PyVal.none Option.none
        Trace.init).2.predCalls = 1 ∧
    (enfAliceNoop.test predFalse (PyVal.obj 2) PyVal.none Trace.init).1 =
      Except.ok (predFalse.test (PyVal.obj 2) PyVal.none) ∧
    (enfAliceNoop.test predFalse (PyVal.obj 2) PyVal.none
        Trace.init).2.handlerCalls = [] :=
  C1_ensure_iff_test_false enfAliceNoop predFalse (PyVal.obj 2) PyVal.none
    Option.none rfl

/-! ## C2 -/

/-- C2 (counterexample): the claim says an explicitly supplied user never
triggers the configured user loader, but the source tests truthiness, not
presence: supplying the explicit user `int 0` (falsy) still invokes the
loader once. -/
theorem C2_counterexample :
    (enfAliceNoop.ensure predTrue (PyVal.int 0) PyVal.none Option.none
        Trace.init).2.loaderCalls = 1 := rfl

/-- C2 (amended: "explicit user" must read "explicit truthy user"): in any
call to `ensure` or `test`, the configured user loader is invoked exactly
once when the user argument is falsy (in particular when it is omitted,
i.e. `None`) and never when it is truthy — hence at most once per check. -/
theorem C2_loader_call_count (e : Enforcer) (p : Pred) (u t : PyVal)
    (onf : Option Handler) :
    (e.ensure p u t onf Trace.init).2.loaderCalls =
      (if u.truthy then 0 else 1) ∧
    (e.test p u t Trace.init).2.loaderCalls =
      (if u.truthy then 0 else 1) := by
  unfold Enforcer.ensure Enforcer.test Enforcer.resolve_user Enforcer.fail
  by_cases hu : u.truthy
  · simp only [hu, if_true]
    by_cases h : p.test u t <;> simp [h, Trace.init]
  · simp only [hu, if_false, Bool.false_eq_true]
    cases hr : e.user_loader.run with
    | error exc => simp [Trace.init]
    | ok v => by_cases h : p.test v t <;> simp [h, Trace.init]

/-! ## C6 -/

/-- C6: an `Enforcer` constructed with no user loader and no failure
handler, on `ensure` without an explicit user (Python default `None`),
raises the `NotImplementedError` configuration error from the default user
loader; the predicate is never evaluated and no failure handler runs. -/
theorem C6_default_enforcer_config_error (p : Pred) (t : PyVal)
    (onf : Option Handler) :
    (Enforcer.new Option.none Option.none).ensure p PyVal.none t onf
        Trace.init =
      (Except.error (Exc.notImplementedError userLoaderNotRegisteredMsg),
       { Trace.init with loaderCalls := 1 }) ∧
    ((Enforcer.new Option.none Option.none).ensure p PyVal.none t onf
        Trace.init).2.predCalls = 0 ∧
    ((Enforcer.new Option.none Option.none).ensure p PyVal.none t onf
        Trace.init).2.handlerCalls = [] := by
  exact ⟨rfl, rfl, rfl⟩

/-! ## C10 -/

/-- C10: with no user loader registered (the `_user_loader` field still the
default), `test` without an explicit truthy user raises the same
`NotImplementedError` configuration error as `ensure`, before the predicate
is evaluated. -/
theorem C10_test_config_error (e : Enforcer) (p : Pred) (u t : PyVal)
    (hl : e.user_loader = default_user_loader) (hu : u.truthy = false) :
    e.test p u t Trace.init =
      (Except.error (Exc.notImplementedError userLoaderNotRegisteredMsg),
       { Trace.init with loaderCalls := 1 }) ∧
    (e.test p u t Trace.init).2.predCalls = 0 := by
  unfold Enforcer.test Enforcer.resolve_user
  simp [hu, hl, default_user_loader, Trace.init]

/-- C10 (witness): a concrete enforcer with a failure handler but no user
loader, queried with the explicit falsy user `int 0`. -/
theorem C10_witness :
    (Enforcer.new Option.none (some noopHandler)).test predTrue (PyVal.int 0)
        PyVal.none Trace.init =
      (Except.error (Exc.notImplementedError userLoaderNotRegisteredMsg),
       { Trace.init with loaderCalls := 1 }) ∧
    ((Enforcer.new Option.none (some noopHandler)).test predTrue
        (PyVal.int 0) PyVal.none Trace.init).2.predCalls = 0 :=
  C10_test_config_error (Enforcer.new Option.none (some noopHandler))
    predTrue (PyVal.int 0) PyVal.none rfl rfl

/-! ## C5 -/

/-- C5: a failure handler declared with exactly `n ≤ 3` positional
parameters, on a denied check, is invoked with exactly the first `n` of
`(predicate, user, target)`, in that order; in the source all three values
are always available (`fargs` on line 116), and the slice
`fargs[:n]` keeps exactly `n` of them. -/
theorem C5_arity_truncation (l : Loader) (p : Pred) (u t : PyVal)
    (h : Handler) (n : Nat) (hn : n ≤ 3)
    (hsig : h.sig = List.replicate n Param.positional)
    (hu : u.truthy = true) (hden : p.test u t = false) :
    ((Enforcer.mk l h).ensure p u t Option.none Trace.init).2.handlerCalls =
      [(h.id,
        ([Arg.predArg p.id, Arg.valArg u, Arg.valArg t]).take n)] ∧
    (([Arg.predArg p.id, Arg.valArg u, Arg.valArg t]).take n).length = n := by
  constructor
  · unfold Enforcer.ensure Enforcer.resolve_user Enforcer.fail
    simp [hu, hden, hsig, Trace.init]
  · rw [List.length_take]
    simp only [List.length_cons, List.length_nil]
    omega

/-- C5 (witness): a two-positional-parameter handler on a denied check
receives exactly `(predicate, user)`. -/
theorem C5_witness :
    ((Enforcer.mk loaderAlice twoArgHandler).ensure predFalse (PyVal.obj 3)
        (PyVal.obj 4) Option.none Trace.init).2.handlerCalls =
      [(twoArgHandler.id,
        ([Arg.predArg predFalse.id, Arg.valArg (PyVal.obj 3),
          Arg.valArg (PyVal.obj 4)]).take 2)] ∧
    (([Arg.predArg predFalse.id, Arg.valArg (PyVal.obj 3),
        Arg.valArg (PyVal.obj 4)]).take 2).length = 2 :=
  C5_arity_truncation loaderAlice predFalse (PyVal.obj 3) (PyVal.obj 4)
    twoArgHandler 2 (by omega) rfl rfl rfl

/-! ## C8 -/

/-- C8: on a denied `ensure` call with a per-call `on_failure` supplied,
the supplied handler — not the configured one — is the single handler
invoked, and the call's outcome is that handler's outcome.  The embedding
is pure in the enforcer, mirroring that `ensure`/`_fail` contain no
assignment to `self._error_handler`; accordingly the third conjunct shows a
subsequent call without `on_failure` still dispatches to the enforcer's
configured handler. -/
theorem C8_on_failure_override (e : Enforcer) (p : Pred) (u t : PyVal)
    (h : Handler) (hu : u.truthy = true) (hden : p.test u t = false) :
    (e.ensure p u t (some h) Trace.init).2.handlerCalls.map Prod.fst =
      [h.id] ∧
    (e.ensure p u t (some h) Trace.init).1 =
      h.run (([Arg.predArg p.id, Arg.valArg u, Arg.valArg t]).take
        h.sig.length) ∧
    (e.ensure p u t Option.none Trace.init).2.handlerCalls.map Prod.fst =
      [e.error_handler.id] := by
  unfold Enforcer.ensure Enforcer.resolve_user Enforcer.fail
  simp [hu, hden, Trace.init]

/-- C8 (witness): on the enforcer configured with `noopHandler` (id 10),
a denied call supplying `raisingHandler` (id 11) dispatches to id 11, and
a call without `on_failure` dispatches to id 10. -/
theorem C8_witness :
    (enfAliceNoop.ensure predFalse (PyVal.obj 2) PyVal.none
        (some raisingHandler) Trace.init).2.handlerCalls.map Prod.fst =
      [raisingHandler.id] ∧
    (enfAliceNoop.ensure predFalse (PyVal.obj 2) PyVal.none
        (some raisingHandler) Trace.init).1 =
      raisingHandler.run
        (([Arg.predArg predFalse.id, Arg.valArg (PyVal.obj 2),
           Arg.valArg PyVal.none]).take raisingHandler.sig.length) ∧
    (enfAliceNoop.ensure predFalse (PyVal.obj 2) PyVal.none Option.none
        Trace.init).2.handlerCalls.map Prod.fst =
      [enfAliceNoop.error_handler.id] :=
  C8_on_failure_override enfAliceNoop predFalse (PyVal.obj 2) PyVal.none
    raisingHandler rfl rfl

/-! ## C9 -/

/-- C9: a failure handler declared as `def h(*args)` has a single entry in
`inspect.signature(h).parameters`, so `_fail`'s slice keeps only the first
of `(predicate, user, target)`: on a denied check the handler receives
exactly one argument, the predicate. -/
theorem C9_varargs_single_argument (e : Enforcer) (p : Pred) (u t : PyVal)
    (h : Handler) (hsig : h.sig = [Param.varArgs])
    (hu : u.truthy = true) (hden : p.test u t = false) :
    (e.ensure p u t (some h) Trace.init).2.handlerCalls =
      [(h.id, [Arg.predArg p.id])] := by
  unfold Enforcer.ensure Enforcer.resolve_user Enforcer.fail
  simp [hu, hden, hsig, Trace.init]

/-- C9 (witness): the concrete `*args` handler receives only the
predicate. -/
theorem C9_witness :
    (enfAliceNoop.ensure predFalse (PyVal.obj 2) (PyVal.obj 9)
        (some varargsHandler) Trace.init).2.handlerCalls =
      [(varargsHandler.id, [Arg.predArg predFalse.id])] :=
  C9_varargs_single_argument enfAliceNoop predFalse (PyVal.obj 2)
    (PyVal.obj 9) varargsHandler rfl rfl rfl

/-! ## C3 -/

/-- C3 (code bug): the wrapper produced by
`requires(predicate, target_loader, on_failure)` does NOT forward
`on_failure` to `ensure` (line 87 of the source calls
`self.ensure(predicate, user=user, target=target)`), contradicting the
`requires` docstring ("Overrides the registered `error_handler`").  At the
failing input — configured handler `noopHandler` (id 10), per-call
`on_failure = raisingHandler` (id 11), always-false predicate — the denial
dispatches to the configured handler id 10, not to the supplied id 11. -/
theorem C3_on_failure_dropped :
    (enfAliceNoop.requires_wrapper predFalse Option.none (some raisingHandler)
        func42 [] Trace.init).2.handlerCalls.map Prod.fst =
      [noopHandler.id] ∧
    noopHandler.id ≠ raisingHandler.id := by
  constructor
  · rfl
  · decide

/-! ## C4 -/

/-- C4 (counterexample): for the always-false predicate the claim says the
wrapper never calls `f`, but with a failure handler that returns normally
(here `noopHandler`) the wrapper proceeds to call `f`: one wrapped-function
call and one handler call occur. -/
theorem C4_counterexample :
    (enfAliceNoop.requires_wrapper predFalse Option.none Option.none func42 []
        Trace.init).2.funcCalls = 1 ∧
    (enfAliceNoop.requires_wrapper predFalse Option.none Option.none func42 []
        Trace.init).2.handlerCalls.length = 1 := by
  constructor <;> rfl

/-- C4 (amended: for the always-false predicate, "the wrapper never calls
`f`" holds only when the failure handler raises; the handler is invoked
exactly once per wrapper invocation regardless, and a handler returning
normally lets the wrapper proceed to call `f`): with a user loader that
returns `u0`, (1) for an always-true predicate the wrapper returns exactly
`f(args)`, calls `f` once and never invokes a failure handler; (2) for an
always-false predicate the failure handler is invoked exactly once, and
`f` is called iff the handler returns normally — a raising handler's
exception is the wrapper's result and `f` is never called. -/
theorem C4_decorator_semantics (e : Enforcer) (u0 : PyVal) (func : Func)
    (args : List PyVal) (hl : e.user_loader.run = Except.ok u0) :
    (∀ p : Pred, (∀ u t, p.test u t = true) →
      (e.requires_wrapper p Option.none Option.none func args Trace.init).1 =
        func.run args ∧
      (e.requires_wrapper p Option.none Option.none func args
          Trace.init).2.funcCalls = 1 ∧
      (e.requires_wrapper p Option.none Option.none func args
          Trace.init).2.handlerCalls = []) ∧
    (∀ p : Pred, (∀ u t, p.test u t = false) →
      (e.requires_wrapper p Option.none Option.none func args
          Trace.init).2.handlerCalls.length = 1 ∧
      (e.error_handler.run
          (([Arg.predArg p.id, Arg.valArg u0, Arg.valArg PyVal.none]).take
            e.error_handler.sig.length) = Except.ok () →
        (e.requires_wrapper p Option.none Option.none func args
            Trace.init).2.funcCalls = 1) ∧
      (∀ exc, e.error_handler.run
          (([Arg.predArg p.id, Arg.valArg u0, Arg.valArg PyVal.none]).take
            e.error_handler.sig.length) = Except.error exc →
        (e.requires_wrapper p Option.none Option.none func args
            Trace.init).2.funcCalls = 0 ∧
        (e.requires_wrapper p Option.none Option.none func args
            Trace.init).1 = Except.error exc)) := by
  constructor
  · intro p hp
    unfold Enforcer.requires_wrapper Enforcer.ensure Enforcer.resolve_user
    by_cases hu0 : u0.truthy <;>
      simp [hl, hu0, hp u0 PyVal.none, Trace.init]
  · intro p hp
    unfold Enforcer.requires_wrapper Enforcer.ensure Enforcer.resolve_user
      Enforcer.fail
    by_cases hu0 : u0.truthy <;>
      cases hres : e.error_handler.run
        (([Arg.predArg p.id, Arg.valArg u0, Arg.valArg PyVal.none]).take
          e.error_handler.sig.length) <;>
      simp_all [hl, hu0, hp u0 PyVal.none, Trace.init]

/-- C4 (witness): the amended theorem at the always-true predicate on the
non-raising enforcer, and at the always-false predicate on the raising
enforcer. -/
theorem C4_witness :
    (enfAliceNoop.requires_wrapper predTrue Option.none Option.none func42 []
        Trace.init).2.handlerCalls = [] ∧
    (enfAliceRaise.requires_wrapper predFalse Option.none Option.none func42
        [] Trace.init).2.funcCalls = 0 :=
  ⟨((C4_decorator_semantics enfAliceNoop (PyVal.obj 1) func42 [] rfl).1
      predTrue (fun _ _ => rfl)).2.2,
   (((C4_decorator_semantics enfAliceRaise (PyVal.obj 1) func42 [] rfl).2
      predFalse (fun _ _ => rfl)).2.2 (Exc.custom 99) rfl).1⟩

/-! ## C7 -/

/-- C7: on a denied check, whatever a failure handler signals propagates:
(A) if the dispatched handler returns normally, `ensure` returns normally;
(B) if it raises, `ensure` raises the same exception; (C) on the decorator
path, a configured handler returning normally lets the wrapper call the
wrapped function and return its result; (D) a configured handler raising
makes the wrapper return that exception without ever calling the wrapped
function. -/
theorem C7_handler_signal_propagation (e : Enforcer) (p : Pred)
    (u t : PyVal) (onf : Option Handler) (func : Func) (args : List PyVal)
    (u0 : PyVal) (hu : u.truthy = true) (hden : p.test u t = false)
    (hl : e.user_loader.run = Except.ok u0)
    (hden0 : p.test u0 PyVal.none = false) :
    ((onf.getD e.error_handler).run
        (([Arg.predArg p.id, Arg.valArg u, Arg.valArg t]).take
          (onf.getD e.error_handler).sig.length) = Except.ok () →
      (e.ensure p u t onf Trace.init).1 = Except.ok ()) ∧
    (∀ exc, (onf.getD e.error_handler).run
        (([Arg.predArg p.id, Arg.valArg u, Arg.valArg t]).take
          (onf.getD e.error_handler).sig.length) = Except.error exc →
      (e.ensure p u t onf Trace.init).1 = Except.error exc) ∧
    (e.error_handler.run
        (([Arg.predArg p.id, Arg.valArg u0, Arg.valArg PyVal.none]).take
          e.error_handler.sig.length) = Except.ok () →
      (e.requires_wrapper p Option.none Option.none func args Trace.init).1 =
        func.run args ∧
      (e.requires_wrapper p Option.none Option.none func args
          Trace.init).2.funcCalls = 1) ∧
    (∀ exc, e.error_handler.run
        (([Arg.predArg p.id, Arg.valArg u0, Arg.valArg PyVal.none]).take
          e.error_handler.sig.length) = Except.error exc →
      (e.requires_wrapper p Option.none Option.none func args
          Trace.init).1 = Except.error exc ∧
      (e.requires_wrapper p Option.none Option.none func args
          Trace.init).2.funcCalls = 0) := by
  refine ⟨?_, ?_, ?_, ?_⟩
  · intro hok
    unfold Enforcer.ensure Enforcer.resolve_user Enforcer.fail
    simp [hu, hden, hok]
  · intro exc herr
    unfold Enforcer.ensure Enforcer.resolve_user Enforcer.fail
    simp [hu, hden, herr]
  · intro hok
    unfold Enforcer.requires_wrapper Enforcer.ensure Enforcer.resolve_user
      Enforcer.fail
    by_cases hu0 : u0.truthy <;> simp [hl, hu0, hden0, hok, Trace.init]
  · intro exc herr
    unfold Enforcer.requires_wrapper Enforcer.ensure Enforcer.resolve_user
      Enforcer.fail
    by_cases hu0 : u0.truthy <;> simp [hl, hu0, hden0, herr, Trace.init]

/-- C7 (witness): on `enfAliceNoop`, a denied `ensure` with the raising
per-call handler returns that handler's exception, while the decorator
path with the configured non-raising handler proceeds to the wrapped
function. -/
theorem C7_witness :
    (enfAliceNoop.ensure predFalse (PyVal.obj 2) PyVal.none
        (some raisingHandler) Trace.init).1 =
      Except.error (Exc.custom 99) ∧
    ((enfAliceNoop.requires_wrapper predFalse Option.none Option.none func42
        [] Trace.init).1 = func42.run [] ∧
     (enfAliceNoop.requires_wrapper predFalse Option.none Option.none func42
        [] Trace.init).2.funcCalls = 1) :=
  ⟨(C7_handler_signal_propagation enfAliceNoop predFalse (PyVal.obj 2)
      PyVal.none (some raisingHandler) func42 [] (PyVal.obj 1) rfl rfl rfl
      rfl).2.1 (Exc.custom 99) rfl,
   (C7_handler_signal_propagation enfAliceNoop predFalse (PyVal.obj 2)
      PyVal.none (some raisingHandler) func42 [] (PyVal.obj 1) rfl rfl rfl
      rfl).2.2.1 rfl⟩

end DjangoRules
